import Mathlib

/-!
Verification development for the MilCubes API client library.

The Python source (`MilCubes/api.py`) is shallowly embedded: JSON values become
an inductive type, Python dicts and object attribute tables become association
lists with first-match lookup, HTTP responses become explicit records given as
inputs, and Python exceptions become an `Except` error type.  Each definition
mirrors one function of the source; evaluation order and the exception actually
raised at each step follow the source line by line.
-/

namespace MilCubes

/-- JSON-like values: the payloads Python's `json` module produces and the
dynamic values stored on `Project` objects.  Numbers are modelled as integers,
which covers every value the client exchanges (ids and string lists). -/
inductive JVal where
  | null : JVal
  | bool (b : Bool) : JVal
  | num (n : Int) : JVal
  | str (s : String) : JVal
  | arr (xs : List JVal) : JVal
  | obj (kvs : List (String × JVal)) : JVal

/-- Python `==` on JSON values: structural comparison.  (Python's numeric
cross-type equalities such as `True == 1` do not arise for the values the
client compares: ids are integers and titles are strings.) -/
def pyEq : JVal → JVal → Bool
  | .null, .null => true
  | .bool a, .bool b => a == b
  | .num a, .num b => a == b
  | .str a, .str b => a == b
  | .arr [], .arr [] => true
  | .arr (a :: as), .arr (b :: bs) => pyEq a b && pyEq (.arr as) (.arr bs)
  | .obj [], .obj [] => true
  | .obj ((k, a) :: as), .obj ((l, b) :: bs) =>
    k == l && pyEq a b && pyEq (.obj as) (.obj bs)
  | _, _ => false

/-- A Python dict with string keys, as an insertion-ordered association list.
Python dicts have unique keys; lookups here take the first match, which agrees
with dict semantics on any list with no duplicate keys. -/
abbrev PyDict := List (String × JVal)

/-- First-match association-list lookup: `d[k]` / `d.get(k)`. -/
def dlookup {α : Type} : List (String × α) → String → Option α
  | [], _ => none
  | (a, v) :: r, k => if a == k then some v else dlookup r k

/-- Dict/attribute assignment `d[k] = v`: replace the first entry with key `k`,
or append a new entry (Python dicts and object `__dict__`s keep insertion
order, with assignment to an existing key keeping its position). -/
def dset {α : Type} : List (String × α) → String → α → List (String × α)
  | [], k, v => [(k, v)]
  | (a, w) :: r, k, v => if a == k then (a, v) :: r else (a, w) :: dset r k v

/-- The keys of the association list are pairwise distinct (true of every list
that models an actual Python dict). -/
def keysNodup {α : Type} : List (String × α) → Bool
  | [] => true
  | (a, _) :: r => !(r.any (·.1 == a)) && keysNodup r

/-- Python truthiness of a JSON value: `None`, `False`, `0`, `""`, `[]` and
`\x7b\x7d` are falsy, everything else is truthy. -/
def truthy : JVal → Bool
  | .null => false
  | .bool b => b
  | .num n => n != 0
  | .str s => !s.data.isEmpty
  | .arr xs => !xs.isEmpty
  | .obj kvs => !kvs.isEmpty

/-- Python `a or b`: `a` when truthy, else `b`. -/
def pyOr (a b : JVal) : JVal := if truthy a then a else b

/-- The exceptions the embedded code can raise.  `api`, `auth` are the
library's own `APIError` and `AuthenticationError`; the rest are the Python
builtins the source can let escape. -/
inductive PyExc where
  | api (msg : String) : PyExc
  | auth (msg : String) : PyExc
  | typeError (msg : String) : PyExc
  | keyError (msg : String) : PyExc
  | valueError (msg : String) : PyExc
  | attributeError (msg : String) : PyExc
  | ioError (msg : String) : PyExc
deriving DecidableEq

/-- Result of running a fragment of the client: a value or a raised exception. -/
abbrev PyResult (α : Type) := Except PyExc α

/-- The computation raised the library's `APIError` (of whatever message). -/
def isApiErr {α : Type} : PyResult α → Bool
  | .error (.api _) => true
  | _ => false

/-- An HTTP response as the client observes it: status code, raw body text and
the result of `response.json()` (`none` when the body is not valid JSON). -/
structure HttpResp where
  status : Nat
  text : String
  json : Option JVal

/-- `requests.Response.raise_for_status` raises exactly for 4xx and 5xx
status codes. -/
def raiseErrStatus (s : Nat) : Bool := decide (400 ≤ s ∧ s < 600)

/-- Python `k in j` for a string `k`: key membership for dicts, element
membership for lists, substring test for strings, `TypeError` otherwise. -/
def pyContains (j : JVal) (k : String) : PyResult Bool :=
  match j with
  | .obj kvs => .ok (dlookup kvs k).isSome
  | .arr xs => .ok (xs.any (fun x => pyEq x (.str k)))
  | .str s => .ok (subList k.data s.data)
  | _ => .error (.typeError "argument is not iterable")
where
  /-- `n` is a prefix of `h`. -/
  prefixList : List Char → List Char → Bool
    | [], _ => true
    | _ :: _, [] => false
    | c :: n, d :: h => c == d && prefixList n h
  /-- `n` occurs as a contiguous run inside `h` (Python substring test). -/
  subList (n : List Char) : List Char → Bool
    | [] => prefixList n []
    | d :: h => prefixList n (d :: h) || subList n h

/-- Python `j[k]` for a string key: dict lookup (`KeyError` when the key is
absent), `TypeError` on every other value. -/
def pyGetItem (j : JVal) (k : String) : PyResult JVal :=
  match j with
  | .obj kvs =>
    match dlookup kvs k with
    | some v => .ok v
    | none => .error (.keyError k)
  | _ => .error (.typeError "value is not subscriptable")

/-- `MilCubesSession._make_request`, applied to the response the transport
produced: re-raise transport errors (including `raise_for_status` on 4xx/5xx)
as `APIError`, re-raise a JSON decode failure as `APIError`, raise `APIError`
when the parsed body has no `data` key, and return `body["data"]` otherwise.
The `in` test and the subscript follow Python semantics on non-dict bodies. -/
def make_request (resp : HttpResp) : PyResult JVal :=
  if raiseErrStatus resp.status then
    .error (.api ("API 请求失败: HTTP " ++ toString resp.status))
  else
    match resp.json with
    | none => .error (.api ("API 响应解析失败: " ++ resp.text))
    | some body =>
      match pyContains body "data" with
      | .error e => .error e
      | .ok false => .error (.api ("API 响应格式错误: " ++ resp.text))
      | .ok true => pyGetItem body "data"

/-- A `Project` object, modelled by its attribute table (`self.__dict__`):
an insertion-ordered association list from attribute name to value. -/
structure Project where
  attrs : List (String × JVal)

/-- The twelve named parameters of `Project.__init__`, in declaration order:
these are exactly the keys `to_dict` emits. -/
def knownFields : List String :=
  ["id", "group_id", "episode_id", "title", "cover", "content",
   "books", "books_file_ids", "images", "images_file_ids",
   "videos", "videos_file_ids"]

/-- The six list-valued parameters that `__init__` defaults with `x or []`. -/
def listFields : List String :=
  ["books", "books_file_ids", "images", "images_file_ids",
   "videos", "videos_file_ids"]

/-- Python `getattr(p, k)` as an optional value (`none` = `AttributeError`). -/
def Project.getattr (p : Project) (k : String) : Option JVal :=
  dlookup p.attrs k

/-- Python `setattr(p, k, v)`. -/
def Project.setattr (p : Project) (k : String) (v : JVal) : Project :=
  ⟨dset p.attrs k v⟩

/-- `Project.__init__`: assigns the twelve named attributes in source order,
normalising each of the six list parameters with `x or []`, then stores every
remaining keyword argument via `setattr`. -/
def Project.init (idv group_id episode_id title cover content
    books books_file_ids images images_file_ids videos videos_file_ids : JVal)
    (kwargs : PyDict) : Project :=
  kwargs.foldl (fun p kv => p.setattr kv.1 kv.2)
    ⟨[("id", idv), ("group_id", group_id), ("episode_id", episode_id),
      ("title", title), ("cover", cover), ("content", content),
      ("books", pyOr books (.arr [])),
      ("books_file_ids", pyOr books_file_ids (.arr [])),
      ("images", pyOr images (.arr [])),
      ("images_file_ids", pyOr images_file_ids (.arr [])),
      ("videos", pyOr videos (.arr [])),
      ("videos_file_ids", pyOr videos_file_ids (.arr []))]⟩

/-- The key is not one of the twelve named `__init__` parameters, so
`cls(**data)` routes it into `**kwargs`. -/
def notKnownKey (k : String) : Bool := !(knownFields.contains k)

/-- `Project.from_dict(data)`, i.e. `cls(**data)`: the six parameters without
defaults must be present (else `TypeError`), the six list parameters default to
`None`, and all keys outside the parameter list are passed as `**kwargs` in
dict order.  A non-dict argument fails like `cls(**data)` does. -/
def Project.from_dict (j : JVal) : PyResult Project :=
  match j with
  | .obj d =>
    match dlookup d "id", dlookup d "group_id", dlookup d "episode_id",
        dlookup d "title", dlookup d "cover", dlookup d "content" with
    | some i, some g, some e, some t, some c, some ct =>
      .ok (Project.init i g e t c ct
        ((dlookup d "books").getD .null)
        ((dlookup d "books_file_ids").getD .null)
        ((dlookup d "images").getD .null)
        ((dlookup d "images_file_ids").getD .null)
        ((dlookup d "videos").getD .null)
        ((dlookup d "videos_file_ids").getD .null)
        (d.filter (fun kv => notKnownKey kv.1)))
    | _, _, _, _, _, _ =>
      .error (.typeError "__init__ missing required positional argument")
  | _ => .error (.typeError "argument after ** must be a mapping")

/-- `Project.to_dict`: reads the twelve known attributes and returns them as a
dict in the source's literal order.  Exactly these twelve keys are emitted;
any other attribute of the object is dropped. -/
def Project.to_dict (p : Project) : PyResult PyDict :=
  match p.getattr "id", p.getattr "group_id", p.getattr "episode_id",
      p.getattr "title", p.getattr "cover", p.getattr "content",
      p.getattr "books", p.getattr "books_file_ids", p.getattr "images",
      p.getattr "images_file_ids", p.getattr "videos",
      p.getattr "videos_file_ids" with
  | some i, some g, some e, some t, some c, some ct,
      some b, some bf, some im, some imf, some v, some vf =>
    .ok [("id", i), ("group_id", g), ("episode_id", e), ("title", t),
         ("cover", c), ("content", ct), ("books", b), ("books_file_ids", bf),
         ("images", im), ("images_file_ids", imf), ("videos", v),
         ("videos_file_ids", vf)]
  | _, _, _, _, _, _, _, _, _, _, _, _ =>
    .error (.attributeError "Project attribute missing")

/-- `Project.upload(session)`: serialise with `to_dict`, PUT it to the
project's resource endpoint (the transport's answer to that request is the
`server` argument, a function of the dict actually sent), and re-wrap a raised
`APIError` with the source's message prefix.  Other exceptions pass through
unhandled, as in the source's `except APIError` clause. -/
def Project.upload (p : Project) (server : PyDict → HttpResp) : PyResult Unit :=
  match p.getattr "id" with
  | none => .error (.attributeError "id")
  | some _ =>
  match p.to_dict with
  | .error e => .error e
  | .ok d =>
    match make_request (server d) with
    | .error (.api m) => .error (.api ("上传项目失败: " ++ m))
    | .error e => .error e
    | .ok _ => .ok ()

/-- `Project.update(session)`: GET `project/\x7bself.id\x7d` (the transport's
answer is `server` applied to the object's `id` attribute), then assign each
key/value pair of the response's `data` dict onto the object with `setattr`,
in dict order.  An `APIError` is re-wrapped with the source's message prefix;
a non-dict `data` fails at `data.items()` like Python does. -/
def Project.update (p : Project) (server : JVal → HttpResp) : PyResult Project :=
  match p.getattr "id" with
  | none => .error (.attributeError "id")
  | some i =>
    match make_request (server i) with
    | .error (.api m) => .error (.api ("更新项目失败: " ++ m))
    | .error e => .error e
    | .ok (.obj kvs) => .ok (kvs.foldl (fun q kv => q.setattr kv.1 kv.2) p)
    | .ok _ => .error (.attributeError "items")

/-- Python `for item in data`: list elements for a JSON array, keys for a
dict, one-character strings for a string, `TypeError` otherwise. -/
def pyIter : JVal → PyResult (List JVal)
  | .arr xs => .ok xs
  | .obj kvs => .ok (kvs.map (fun kv => .str kv.1))
  | .str s => .ok (s.data.map (fun c => .str (String.singleton c)))
  | _ => .error (.typeError "argument is not iterable")

/-- A `ProjectCollection`: the fetched projects plus, when the collection was
built by a session, that session's transport for single-project GETs (the
function from a project id to the response of `GET project/\x7bid\x7d`). -/
structure ProjectCollection where
  projects : List Project
  server : Option (JVal → HttpResp)

/-- `MilCubesSession.get_projects`: run `_make_request` on the listing
response, build each item with `Project.from_dict`, and wrap the results in a
collection bound to the issuing session. -/
def get_projects (resp : HttpResp) (srv : JVal → HttpResp) :
    PyResult ProjectCollection :=
  match make_request resp with
  | .error e => .error e
  | .ok data =>
    match pyIter data with
    | .error e => .error e
    | .ok items =>
      match items.mapM Project.from_dict with
      | .error e => .error e
      | .ok ps => .ok ⟨ps, some srv⟩

/-- `MilCubesSession.get_project`: run `_make_request` on the single-resource
response and build one `Project` from its `data`. -/
def get_project (resp : HttpResp) : PyResult Project :=
  match make_request resp with
  | .error e => .error e
  | .ok data => Project.from_dict data

/-- What the direct POST to object storage produced: a response with some
status code, or a raised `requests` transport exception. -/
inductive OssResult where
  | resp (status : Nat) : OssResult
  | exc (msg : String) : OssResult

/-- Python `a + b` on the values at hand: string concatenation when both are
strings, `TypeError` otherwise. -/
def pyAddStr (a b : JVal) : PyResult JVal :=
  match a, b with
  | .str x, .str y => .ok (.str (x ++ y))
  | _, _ => .error (.typeError "unsupported operand types for +")

/-- `MilCubesSession.upload_file`, with the transport's three answers as
inputs: `sigResp` for the phase-1 signature GET, `oss` for the direct POST to
object storage (a function of the multipart form fields actually sent, built
in the source's literal order), and `regResp` for the phase-3 registration
POST.  Evaluation order and the exception raised at each step follow the
source: the signature fields are read in body order, `signature["host"]` is
read when the POST is issued, only a transport exception from the storage POST
is re-raised as `APIError` (its status is never inspected), and the result is
`(signature["host"] + signature["dir"], file_data["id"])`. -/
def upload_file (sigResp : HttpResp) (oss : List (String × JVal) → OssResult)
    (regResp : HttpResp) : PyResult (JVal × JVal) := do
  let data ← make_request sigResp
  let signature ← pyGetItem data "signature"
  let dirv ← pyGetItem signature "dir"
  let policy ← pyGetItem signature "policy"
  let accessid ← pyGetItem signature "accessid"
  let sigv ← pyGetItem signature "signature"
  let body := [("key", dirv), ("success_action_status", JVal.str "200"),
               ("policy", policy), ("OSSAccessKeyId", accessid),
               ("Signature", sigv)]
  let host ← pyGetItem signature "host"
  match oss body with
  | .exc m => .error (.api ("文件上传失败: " ++ m))
  | .resp _ => do
    let file_data ← make_request regResp
    let url ← pyAddStr host dirv
    let fid ← pyGetItem file_data "id"
    return (url, fid)

/-- The client's fixed default header set (a desktop browser User-Agent). -/
def DEFAULT_HEADERS : List (String × String) :=
  [("User-Agent", "Mozilla/5.0 (Windows NT 10.0; Win64; x64) AppleWebKit/537.36 (KHTML, like Gecko) Chrome/58.0.3029.110 Safari/537.3")]

/-- A `MilCubesSession` as far as its observable state goes: the stored token
and the header dict built by `__init__`. -/
structure MilCubesSession where
  auth_token : Option String
  headers : List (String × String)

/-- `MilCubesSession.__init__`: copy the default headers and, when the token
argument is truthy (a non-empty string), add `Authorization: Bearer <token>`.
A falsy token (absent or empty) leaves the headers without `Authorization`. -/
def sessionInit (auth_token : Option String) : MilCubesSession :=
  match auth_token with
  | some t =>
    if !t.data.isEmpty then
      ⟨some t, dset DEFAULT_HEADERS "Authorization" ("Bearer " ++ t)⟩
    else ⟨some t, DEFAULT_HEADERS⟩
  | none => ⟨none, DEFAULT_HEADERS⟩

/-- The response of the admin-auth GET, as far as `from_cookies` reads it:
its header dict. -/
structure AuthResponse where
  headers : List (String × String)

/-- Python `str.split(sep)` for a one-character separator, on the character
list: split at every occurrence, keeping empty segments. -/
def splitOnChar (c : Char) : List Char → List (List Char)
  | [] => [[]]
  | x :: xs =>
    match splitOnChar c xs with
    | [] => [[]]
    | h :: t => if x == c then [] :: h :: t else (x :: h) :: t

/-- Python `s.split("=")`. -/
def pySplitEq (s : String) : List String :=
  (splitOnChar '=' s.data).map List.asString

/-- `MilCubesSession.from_cookies`, applied to the admin-auth response: fail
with `AuthenticationError` when no `Location` header is present, otherwise
take segment 1 of the header value split on `=` as the bearer token (an
`IndexError` when no `=` occurs, re-wrapped by the catch-all clause into an
`AuthenticationError`) and build the session from it. -/
def from_cookies (resp : AuthResponse) : PyResult MilCubesSession :=
  match dlookup resp.headers "Location" with
  | none => .error (.auth "从 cookies 创建会话失败: 无法从 cookies 获取认证令牌")
  | some loc =>
    match (pySplitEq loc)[1]? with
    | none => .error (.auth "从 cookies 创建会话失败: list index out of range")
    | some tok => .ok (sessionInit (some tok))

/-- The shared linear scan of `find_by_id` / `find_by_title`: walk the list,
read the `field` attribute of each project, and on the first Python-`==`
match either return the project directly (no session) or return it refreshed
by `Project.update` (session bound).  When no project matches, raise the
source's not-found `ValueError`. -/
def scanBy (field : String) (server : Option (JVal → HttpResp)) (target : JVal)
    (errMsg : String) : List Project → PyResult Project
  | [] => .error (.valueError errMsg)
  | p :: rest =>
    match p.getattr field with
    | none => .error (.attributeError field)
    | some x =>
      if pyEq x target then
        match server with
        | some srv => p.update srv
        | none => .ok p
      else scanBy field server target errMsg rest

/-- Python `str(v)` for the scalar values the client formats (`str` of lists
and dicts is not exercised by any theorem below and is left schematic). -/
def pyStrJ : JVal → String
  | .null => "None"
  | .bool true => "True"
  | .bool false => "False"
  | .num n => toString n
  | .str s => s
  | .arr _ => "[...]"
  | .obj _ => "\x7b...\x7d"

/-- `ProjectCollection.find_by_id`. -/
def ProjectCollection.find_by_id (c : ProjectCollection) (project_id : JVal) :
    PyResult Project :=
  scanBy "id" c.server project_id
    ("未找到 ID 为 " ++ pyStrJ project_id ++ " 的项目") c.projects

/-- `ProjectCollection.find_by_title`. -/
def ProjectCollection.find_by_title (c : ProjectCollection) (title : JVal) :
    PyResult Project :=
  scanBy "title" c.server title
    ("未找到标题为 " ++ pyStrJ title ++ " 的项目") c.projects

/-- The file system as the client touches it: a map from path to contents
(directories are implicit; `os.makedirs(..., exist_ok=True)` is a no-op on
this view). -/
abbrev FS := List (String × String)

/-- `os.path.join(a, b)` on POSIX for one component: `b` when absolute,
otherwise `a` and `b` glued with exactly one separator. -/
def ospath_join (a b : String) : String :=
  if b.data.head? == some '/' then b
  else if a.data.isEmpty then b
  else if a.data.getLast? == some '/' then a ++ b
  else a ++ "/" ++ b

/-- `Project.download_content(output_dir)`: build the path
`output_dir/<id>-<title>.html` by f-string formatting, write the `content`
attribute to it (`TypeError` when `content` is not a string, as `f.write`
raises), and return the path together with the updated file system. -/
def Project.download_content (p : Project) (output_dir : String) (fs : FS) :
    PyResult (String × FS) :=
  match p.getattr "id" with
  | none => .error (.attributeError "id")
  | some i =>
    match p.getattr "title" with
    | none => .error (.attributeError "title")
    | some t =>
      let file_path := ospath_join output_dir (pyStrJ i ++ "-" ++ pyStrJ t ++ ".html")
      match p.getattr "content" with
      | none => .error (.attributeError "content")
      | some (.str c) => .ok (file_path, dset fs file_path c)
      | some _ => .error (.typeError "write argument must be str")

/-- A heap of `Project` objects, for stating the in-place (reference)
semantics of `update`: Python variables holding the same object are indices
pointing at the same cell. -/
def updateRef (h : List Project) (i : Nat) (srv : JVal → HttpResp) :
    PyResult (List Project) :=
  match h[i]? with
  | some p =>
    match p.update srv with
    | .ok q => .ok (h.set i q)
    | .error e => .error e
  | none => .error (.valueError "dangling reference")

/-- The value is the empty JSON array. -/
def isEmptyArr : JVal → Bool
  | .arr [] => true
  | _ => false

/-- The round-trip condition on one list-field value: truthy, or the empty
list — exactly when Python's `v or []` gives back a value equal to `v`. -/
def rtOk (v : JVal) : Bool := truthy v || isEmptyArr v

/-- The dict has pairwise-distinct keys and its key set is exactly the twelve
known project fields. -/
def hasExactKnownKeys (d : PyDict) : Bool :=
  keysNodup d && (d.map Prod.fst).all (fun k => knownFields.contains k)
    && knownFields.all (fun k => (dlookup d k).isSome)

/-- Each of the six list fields is present with a round-trip-safe value. -/
def listFieldsRT (d : PyDict) : Bool :=
  listFields.all (fun f =>
    match dlookup d f with
    | some v => rtOk v
    | none => false)

/-- Python `==` on two dicts with unique keys: same key set, equal values. -/
def DictEq (a b : PyDict) : Prop :=
  (∀ kv ∈ a, dlookup b kv.1 = some kv.2) ∧
  (∀ kv ∈ b, dlookup a kv.1 = some kv.2)

/-- Strict `orElse` on options, for stating lookup-with-fallback results. -/
def oElse {α : Type} (a b : Option α) : Option α :=
  match a with
  | some x => some x
  | none => b

/-! ### Association-list lemmas -/

theorem eq_of_isEmptyArr {v : JVal} (h : isEmptyArr v = true) : v = .arr [] := by
  cases v with
  | arr xs =>
    cases xs with
    | nil => rfl
    | cons a as => simp [isEmptyArr] at h
  | null => simp [isEmptyArr] at h
  | bool b => simp [isEmptyArr] at h
  | num n => simp [isEmptyArr] at h
  | str s => simp [isEmptyArr] at h
  | obj kvs => simp [isEmptyArr] at h

theorem pyOr_rtOk {v : JVal} (h : rtOk v = true) : pyOr v (.arr []) = v := by
  unfold rtOk at h
  unfold pyOr
  cases hb : truthy v with
  | true => simp
  | false =>
    simp [hb] at h ⊢
    exact (eq_of_isEmptyArr h).symm

theorem dlookup_dset {α : Type} (l : List (String × α)) (k k' : String) (v : α) :
    dlookup (dset l k v) k' = if k' = k then some v else dlookup l k' := by
  induction l with
  | nil =>
    by_cases h : k' = k
    · subst h
      simp [dset, dlookup]
    · have h' : ¬k = k' := fun e => h e.symm
      simp [dset, dlookup, h, h']
  | cons hd tl ih =>
    obtain ⟨a, w⟩ := hd
    by_cases hak : a = k
    · subst hak
      by_cases h : k' = a
      · subst h
        simp [dset, dlookup]
      · have h' : ¬a = k' := fun e => h e.symm
        simp [dset, dlookup, h, h']
    · by_cases h : k' = a
      · subst h
        simp only [dset, beq_iff_eq, hak, if_false]
        simp [dlookup, hak]
      · have h' : ¬a = k' := fun e => h e.symm
        simp only [dset, beq_iff_eq, hak, if_false]
        simp [dlookup, h', ih]

theorem dlookup_eq_none_of_any_false {α : Type} {l : List (String × α)}
    {k : String} (h : l.any (·.1 == k) = false) : dlookup l k = none := by
  induction l with
  | nil => rfl
  | cons hd tl ih =>
    simp only [List.any_cons, Bool.or_eq_false_iff] at h
    simp only [dlookup, h.1]
    exact ih h.2

theorem isSome_dlookup_of_mem {α : Type} {l : List (String × α)}
    {k : String} {v : α} (h : (k, v) ∈ l) : (dlookup l k).isSome = true := by
  induction l with
  | nil => simp at h
  | cons hd tl ih =>
    obtain ⟨a, w⟩ := hd
    rcases List.mem_cons.mp h with h1 | h1
    · cases h1
      simp [dlookup]
    · by_cases hak : a = k
      · simp [dlookup, hak]
      · simp only [dlookup, beq_iff_eq, hak, if_false]
        exact ih h1

theorem mem_of_dlookup_eq_some {α : Type} {l : List (String × α)}
    {k : String} {v : α} (h : dlookup l k = some v) : (k, v) ∈ l := by
  induction l with
  | nil => simp [dlookup] at h
  | cons hd tl ih =>
    obtain ⟨a, w⟩ := hd
    by_cases hak : a = k
    · subst hak
      simp only [dlookup, beq_self_eq_true, if_true, Option.some.injEq] at h
      subst h
      exact List.mem_cons_self _ _
    · simp only [dlookup, beq_iff_eq, hak, if_false] at h
      exact List.mem_cons_of_mem _ (ih h)

theorem dlookup_of_mem_nodup {α : Type} {l : List (String × α)}
    (hnd : keysNodup l = true) {k : String} {v : α} (h : (k, v) ∈ l) :
    dlookup l k = some v := by
  induction l with
  | nil => simp at h
  | cons hd tl ih =>
    obtain ⟨a, w⟩ := hd
    simp only [keysNodup, Bool.and_eq_true, Bool.not_eq_true'] at hnd
    rcases List.mem_cons.mp h with h1 | h1
    · cases h1
      simp [dlookup]
    · by_cases hak : a = k
      · subst hak
        have h2 : tl.any (·.1 == a) = true :=
          List.any_eq_true.mpr ⟨(a, v), h1, by simp⟩
        rw [h2] at hnd
        exact absurd hnd.1 (by simp)
      · simp only [dlookup, beq_iff_eq, hak, if_false]
        exact ih hnd.2 h1

theorem getattr_setattr (p : Project) (k k' : String) (v : JVal) :
    (p.setattr k v).getattr k' = if k' = k then some v else p.getattr k' := by
  unfold Project.setattr Project.getattr
  exact dlookup_dset p.attrs k k' v

theorem getattr_foldSetattr (kvs : PyDict) (p : Project) (k : String)
    (hnd : keysNodup kvs = true) :
    (kvs.foldl (fun q kv => q.setattr kv.1 kv.2) p).getattr k =
      oElse (dlookup kvs k) (p.getattr k) := by
  induction kvs generalizing p with
  | nil => simp [dlookup, oElse]
  | cons hd tl ih =>
    obtain ⟨a, w⟩ := hd
    simp only [keysNodup, Bool.and_eq_true, Bool.not_eq_true'] at hnd
    simp only [List.foldl_cons]
    rw [ih _ hnd.2]
    by_cases hk : k = a
    · subst hk
      rw [dlookup_eq_none_of_any_false hnd.1]
      simp [dlookup, getattr_setattr, oElse]
    · have hk' : ¬a = k := fun e => hk e.symm
      simp only [dlookup, beq_iff_eq, hk', if_false]
      rw [getattr_setattr, if_neg hk]

theorem any_filter_false {α : Type} {l : List α} {p q : α → Bool}
    (h : l.any p = false) : (l.filter q).any p = false := by
  induction l with
  | nil => rfl
  | cons hd tl ih =>
    simp only [List.any_cons, Bool.or_eq_false_iff] at h
    simp only [List.filter_cons]
    by_cases hq : q hd = true
    · simp [hq, h.1, ih h.2]
    · simp only [hq, if_false]
      exact ih h.2

theorem keysNodup_filter {α : Type} {l : List (String × α)} {q : String × α → Bool}
    (hnd : keysNodup l = true) : keysNodup (l.filter q) = true := by
  induction l with
  | nil => rfl
  | cons hd tl ih =>
    obtain ⟨a, w⟩ := hd
    simp only [keysNodup, Bool.and_eq_true, Bool.not_eq_true'] at hnd
    simp only [List.filter_cons]
    by_cases hq : q (a, w) = true
    · simp only [hq, if_true, keysNodup, Bool.and_eq_true, Bool.not_eq_true']
      exact ⟨any_filter_false hnd.1, ih hnd.2⟩
    · simp only [hq, if_false]
      exact ih hnd.2

theorem dlookup_filter_key_pos {α : Type} {l : List (String × α)}
    {q : String → Bool} {k : String} (hq : q k = true) :
    dlookup (l.filter (fun kv => q kv.1)) k = dlookup l k := by
  induction l with
  | nil => rfl
  | cons hd tl ih =>
    obtain ⟨a, w⟩ := hd
    by_cases hak : a = k
    · subst hak
      simp [List.filter_cons, hq, dlookup]
    · simp only [List.filter_cons]
      by_cases hqa : q a = true
      · simp only [hqa, if_true, dlookup, beq_iff_eq, hak, if_false]
        exact ih
      · simp only [hqa, if_false, dlookup, beq_iff_eq, hak, if_false]
        exact ih

theorem dlookup_filter_key_neg {α : Type} {l : List (String × α)}
    {q : String → Bool} {k : String} (hq : q k = false) :
    dlookup (l.filter (fun kv => q kv.1)) k = none := by
  induction l with
  | nil => rfl
  | cons hd tl ih =>
    obtain ⟨a, w⟩ := hd
    by_cases hak : a = k
    · subst hak
      simp [List.filter_cons, hq]
      exact ih
    · simp only [List.filter_cons]
      by_cases hqa : q a = true
      · simp only [hqa, if_true, dlookup, beq_iff_eq, hak, if_false]
        exact ih
      · simp only [hqa, if_false]
        exact ih

theorem dlookup_eq_none_of_keys {α : Type} {l : List (String × α)} {k : String}
    (h : ∀ kv ∈ l, kv.1 ≠ k) : dlookup l k = none := by
  induction l with
  | nil => rfl
  | cons hd tl ih =>
    obtain ⟨a, w⟩ := hd
    simp only [dlookup, beq_iff_eq, h (a, w) (List.mem_cons_self _ _), if_false]
    exact ih (fun kv hkv => h kv (List.mem_cons_of_mem _ hkv))

theorem filter_eq_nil_of_false {α : Type} {l : List α} {p : α → Bool}
    (h : ∀ a ∈ l, p a = false) : l.filter p = [] := by
  induction l with
  | nil => rfl
  | cons hd tl ih =>
    simp only [List.filter_cons, h hd (List.mem_cons_self _ _), if_false]
    exact ih (fun a ha => h a (List.mem_cons_of_mem _ ha))

/-! ### The linear scan of the collection lookups -/

theorem scanBy_found (field : String) (server : Option (JVal → HttpResp))
    (target : JVal) (msg : String) (pre post : List Project) (p : Project)
    (hpre : ∀ q ∈ pre, ∃ w, q.getattr field = some w ∧ pyEq w target = false)
    (w : JVal) (hw : p.getattr field = some w) (hweq : pyEq w target = true) :
    scanBy field server target msg (pre ++ p :: post) =
      match server with
      | some srv => p.update srv
      | none => .ok p := by
  induction pre with
  | nil =>
    simp only [List.nil_append, scanBy, hw, hweq, if_true]
  | cons q rest ih =>
    obtain ⟨x, hx, hxeq⟩ := hpre q (List.mem_cons_self _ _)
    simp only [List.cons_append, scanBy, hx, hxeq, Bool.false_eq_true, if_false]
    exact ih (fun r hr => hpre r (List.mem_cons_of_mem _ hr))

theorem scanBy_notfound (field : String) (server : Option (JVal → HttpResp))
    (target : JVal) (msg : String) (ps : List Project)
    (h : ∀ q ∈ ps, ∃ w, q.getattr field = some w ∧ pyEq w target = false) :
    scanBy field server target msg ps = .error (.valueError msg) := by
  induction ps with
  | nil => rfl
  | cons q rest ih =>
    obtain ⟨x, hx, hxeq⟩ := h q (List.mem_cons_self _ _)
    simp only [scanBy, hx, hxeq, Bool.false_eq_true, if_false]
    exact ih (fun r hr => h r (List.mem_cons_of_mem _ hr))

theorem contains_true_iff_mem {l : List String} {k : String} :
    l.contains k = true ↔ k ∈ l := List.elem_iff

/-! ### Inversion helpers for construction and serialisation -/

theorem from_dict_ok_inv (d : PyDict) (p : Project)
    (hp : Project.from_dict (.obj d) = .ok p) :
    ∃ i g e t c ct, dlookup d "id" = some i ∧ dlookup d "group_id" = some g ∧
      dlookup d "episode_id" = some e ∧ dlookup d "title" = some t ∧
      dlookup d "cover" = some c ∧ dlookup d "content" = some ct ∧
      p = Project.init i g e t c ct
        ((dlookup d "books").getD .null)
        ((dlookup d "books_file_ids").getD .null)
        ((dlookup d "images").getD .null)
        ((dlookup d "images_file_ids").getD .null)
        ((dlookup d "videos").getD .null)
        ((dlookup d "videos_file_ids").getD .null)
        (d.filter (fun kv => notKnownKey kv.1)) := by
  simp only [Project.from_dict] at hp
  split at hp
  next i g e t c ct hi hg he ht hc hct =>
    injection hp with hp
    exact ⟨i, g, e, t, c, ct, hi, hg, he, ht, hc, hct, hp.symm⟩
  next =>
    exact absurd hp (by simp)

theorem to_dict_ok_spec (p : Project) (td : PyDict) (htd : p.to_dict = .ok td) :
    td.map Prod.fst = knownFields ∧
    ∀ k ∈ knownFields, dlookup td k = p.getattr k := by
  simp only [Project.to_dict] at htd
  split at htd
  next i g e t c ct b bf im imf v vf hi hg he ht hc hct hb hbf him himf hv hvf =>
    injection htd with htd
    subst htd
    refine ⟨rfl, ?_⟩
    intro k hk
    simp only [knownFields, List.mem_cons, List.not_mem_nil, or_false] at hk
    rcases hk with rfl | rfl | rfl | rfl | rfl | rfl | rfl | rfl | rfl | rfl | rfl | rfl
    · exact hi.symm
    · exact hg.symm
    · exact he.symm
    · exact ht.symm
    · exact hc.symm
    · exact hct.symm
    · exact hb.symm
    · exact hbf.symm
    · exact him.symm
    · exact himf.symm
    · exact hv.symm
    · exact hvf.symm
  next =>
    exact absurd htd (by simp)

theorem getattr_init (i g e t c ct b bf im imf v vf : JVal) (kwargs : PyDict)
    (k : String) (hnd : keysNodup kwargs = true) :
    (Project.init i g e t c ct b bf im imf v vf kwargs).getattr k =
      oElse (dlookup kwargs k)
        (dlookup [("id", i), ("group_id", g), ("episode_id", e), ("title", t),
          ("cover", c), ("content", ct), ("books", pyOr b (.arr [])),
          ("books_file_ids", pyOr bf (.arr [])), ("images", pyOr im (.arr [])),
          ("images_file_ids", pyOr imf (.arr [])),
          ("videos", pyOr v (.arr [])),
          ("videos_file_ids", pyOr vf (.arr []))] k) := by
  simp only [Project.init]
  exact getattr_foldSetattr _ _ _ hnd

/-! ### Claim theorems -/

/-- C2: for every session whose signature response carries `host`, `dir`,
`policy`, `accessid` and `signature` (with `host` and `dir` strings, as the
concatenation requires) and whose registration response carries an `id`,
`upload_file` returns the pair `(host ++ dir, id)`, whatever status the
object-storage POST answers with. -/
theorem upload_file_returns_public_url_and_id
    (sigResp regResp : HttpResp) (st : Nat)
    (data signature pol acc sg fd idv : JVal) (host dir : String)
    (h1 : make_request sigResp = .ok data)
    (h2 : pyGetItem data "signature" = .ok signature)
    (h3 : pyGetItem signature "dir" = .ok (.str dir))
    (h4 : pyGetItem signature "policy" = .ok pol)
    (h5 : pyGetItem signature "accessid" = .ok acc)
    (h6 : pyGetItem signature "signature" = .ok sg)
    (h7 : pyGetItem signature "host" = .ok (.str host))
    (h8 : make_request regResp = .ok fd)
    (h9 : pyGetItem fd "id" = .ok idv) :
    upload_file sigResp (fun _ => .resp st) regResp =
      .ok (.str (host ++ dir), idv) := by
  simp [upload_file, h1, h2, h3, h4, h5, h6, h7, h8, h9, pyAddStr, bind,
    Except.bind, pure, Except.pure]

/-- C2 witness: the spec's mocked two-phase upload — signature response
`\x7bhost: "https://oss.example", dir: "/d/key", policy: "P", accessid: "AK",
signature: "SIG"\x7d`, registration response `\x7bid: 42\x7d` — returns
`("https://oss.example/d/key", 42)`. -/
theorem upload_file_returns_public_url_and_id_witness :
    upload_file
      ⟨200, "", some (.obj [("data", .obj [("signature", .obj
        [("host", .str "https://oss.example"), ("dir", .str "/d/key"),
         ("policy", .str "P"), ("accessid", .str "AK"),
         ("signature", .str "SIG")])])])⟩
      (fun _ => .resp 200)
      ⟨200, "", some (.obj [("data", .obj [("id", .num 42)])])⟩ =
      .ok (.str "https://oss.example/d/key", .num 42) :=
  upload_file_returns_public_url_and_id _ _ 200 _ _ _ _ _ _ _
    "https://oss.example" "/d/key" rfl rfl rfl rfl rfl rfl rfl rfl rfl

/-- C9: the phase-2 POST to object storage is never validated — the result of
`upload_file` is the same whatever status the storage host answers (first
conjunct: any two statuses give identical runs, so a failure status still
proceeds to phase-3 registration), and a transport exception from that POST
surfaces as the upload `APIError` (second conjunct). -/
theorem upload_file_ignores_storage_status :
    (∀ (sigResp regResp : HttpResp) (s1 s2 : Nat),
      upload_file sigResp (fun _ => .resp s1) regResp =
        upload_file sigResp (fun _ => .resp s2) regResp)
    ∧ (∀ (sigResp regResp : HttpResp) (m : String)
        (data signature dirv pol acc sg host : JVal),
        make_request sigResp = .ok data →
        pyGetItem data "signature" = .ok signature →
        pyGetItem signature "dir" = .ok dirv →
        pyGetItem signature "policy" = .ok pol →
        pyGetItem signature "accessid" = .ok acc →
        pyGetItem signature "signature" = .ok sg →
        pyGetItem signature "host" = .ok host →
        upload_file sigResp (fun _ => .exc m) regResp =
          .error (.api ("文件上传失败: " ++ m))) := by
  constructor
  · intro sigResp regResp s1 s2
    rfl
  · intro sigResp regResp m data signature dirv pol acc sg host
      h1 h2 h3 h4 h5 h6 h7
    simp [upload_file, h1, h2, h3, h4, h5, h6, h7, bind, Except.bind, pure,
      Except.pure]

/-- C9 witness: with the mocked signature response, a storage POST answering
HTTP 500 yields the same result as one answering 200, and a storage-side
transport exception surfaces as the upload `APIError`. -/
theorem upload_file_ignores_storage_status_witness :
    (upload_file
      ⟨200, "", some (.obj [("data", .obj [("signature", .obj
        [("host", .str "https://oss.example"), ("dir", .str "/d/key"),
         ("policy", .str "P"), ("accessid", .str "AK"),
         ("signature", .str "SIG")])])])⟩
      (fun _ => .resp 500)
      ⟨200, "", some (.obj [("data", .obj [("id", .num 42)])])⟩ =
    upload_file
      ⟨200, "", some (.obj [("data", .obj [("signature", .obj
        [("host", .str "https://oss.example"), ("dir", .str "/d/key"),
         ("policy", .str "P"), ("accessid", .str "AK"),
         ("signature", .str "SIG")])])])⟩
      (fun _ => .resp 200)
      ⟨200, "", some (.obj [("data", .obj [("id", .num 42)])])⟩)
    ∧ upload_file
      ⟨200, "", some (.obj [("data", .obj [("signature", .obj
        [("host", .str "https://oss.example"), ("dir", .str "/d/key"),
         ("policy", .str "P"), ("accessid", .str "AK"),
         ("signature", .str "SIG")])])])⟩
      (fun _ => .exc "connection reset")
      ⟨200, "", some (.obj [("data", .obj [("id", .num 42)])])⟩ =
      .error (.api ("文件上传失败: " ++ "connection reset")) :=
  ⟨upload_file_ignores_storage_status.1 _ _ 500 200,
   upload_file_ignores_storage_status.2 _ _ "connection reset"
     _ _ _ _ _ _ _ rfl rfl rfl rfl rfl rfl rfl⟩

/-- C1 (amended): for every dict `d` with unique keys whose key set is exactly
the twelve known project fields, `Project.from_dict(d).to_dict() == d` holds
provided each of the six list-field values is truthy or the empty list; the
`x or []` normalisation in `__init__` rewrites every other falsy value (such
as `null`) to `[]`, which breaks the round trip (see the counterexample). -/
theorem from_dict_to_dict_roundtrip (d : PyDict)
    (hkeys : hasExactKnownKeys d = true) (hlist : listFieldsRT d = true) :
    ∃ p td, Project.from_dict (.obj d) = .ok p ∧ p.to_dict = .ok td ∧
      DictEq td d := by
  simp only [hasExactKnownKeys, Bool.and_eq_true] at hkeys
  obtain ⟨⟨hnd, hsub⟩, hall⟩ := hkeys
  rw [List.all_eq_true] at hall hsub
  simp only [listFieldsRT, List.all_eq_true] at hlist
  obtain ⟨vi, hvi⟩ := Option.isSome_iff_exists.mp (hall "id" (by simp [knownFields]))
  obtain ⟨vg, hvg⟩ := Option.isSome_iff_exists.mp (hall "group_id" (by simp [knownFields]))
  obtain ⟨ve, hve⟩ := Option.isSome_iff_exists.mp (hall "episode_id" (by simp [knownFields]))
  obtain ⟨vt, hvt⟩ := Option.isSome_iff_exists.mp (hall "title" (by simp [knownFields]))
  obtain ⟨vc, hvc⟩ := Option.isSome_iff_exists.mp (hall "cover" (by simp [knownFields]))
  obtain ⟨vct, hvct⟩ := Option.isSome_iff_exists.mp (hall "content" (by simp [knownFields]))
  obtain ⟨vb, hvb⟩ := Option.isSome_iff_exists.mp (hall "books" (by simp [knownFields]))
  obtain ⟨vbf, hvbf⟩ := Option.isSome_iff_exists.mp (hall "books_file_ids" (by simp [knownFields]))
  obtain ⟨vim, hvim⟩ := Option.isSome_iff_exists.mp (hall "images" (by simp [knownFields]))
  obtain ⟨vimf, hvimf⟩ := Option.isSome_iff_exists.mp (hall "images_file_ids" (by simp [knownFields]))
  obtain ⟨vv, hvv⟩ := Option.isSome_iff_exists.mp (hall "videos" (by simp [knownFields]))
  obtain ⟨vvf, hvvf⟩ := Option.isSome_iff_exists.mp (hall "videos_file_ids" (by simp [knownFields]))
  have hfilter : d.filter (fun kv => notKnownKey kv.1) = [] := by
    apply filter_eq_nil_of_false
    intro kv hkv
    have hmem := hsub kv.1 (List.mem_map_of_mem Prod.fst hkv)
    simp only [notKnownKey, hmem, Bool.not_true]
  have hfd : Project.from_dict (.obj d) =
      .ok (Project.init vi vg ve vt vc vct vb vbf vim vimf vv vvf []) := by
    simp only [Project.from_dict, hvi, hvg, hve, hvt, hvc, hvct, hvb, hvbf,
      hvim, hvimf, hvv, hvvf, Option.getD_some, hfilter]
  have hrb : rtOk vb = true := by
    have h1 := hlist "books" (by simp [listFields])
    rw [hvb] at h1
    exact h1
  have hrbf : rtOk vbf = true := by
    have h1 := hlist "books_file_ids" (by simp [listFields])
    rw [hvbf] at h1
    exact h1
  have hrim : rtOk vim = true := by
    have h1 := hlist "images" (by simp [listFields])
    rw [hvim] at h1
    exact h1
  have hrimf : rtOk vimf = true := by
    have h1 := hlist "images_file_ids" (by simp [listFields])
    rw [hvimf] at h1
    exact h1
  have hrv : rtOk vv = true := by
    have h1 := hlist "videos" (by simp [listFields])
    rw [hvv] at h1
    exact h1
  have hrvf : rtOk vvf = true := by
    have h1 := hlist "videos_file_ids" (by simp [listFields])
    rw [hvvf] at h1
    exact h1
  have htd : (Project.init vi vg ve vt vc vct vb vbf vim vimf vv vvf []).to_dict
      = .ok [("id", vi), ("group_id", vg), ("episode_id", ve), ("title", vt),
             ("cover", vc), ("content", vct),
             ("books", pyOr vb (.arr [])),
             ("books_file_ids", pyOr vbf (.arr [])),
             ("images", pyOr vim (.arr [])),
             ("images_file_ids", pyOr vimf (.arr [])),
             ("videos", pyOr vv (.arr [])),
             ("videos_file_ids", pyOr vvf (.arr []))] := rfl
  rw [pyOr_rtOk hrb, pyOr_rtOk hrbf, pyOr_rtOk hrim, pyOr_rtOk hrimf,
    pyOr_rtOk hrv, pyOr_rtOk hrvf] at htd
  refine ⟨_, _, hfd, htd, ?_, ?_⟩
  · intro kv hkv
    simp only [List.mem_cons, List.not_mem_nil, or_false] at hkv
    rcases hkv with rfl | rfl | rfl | rfl | rfl | rfl | rfl | rfl | rfl | rfl | rfl | rfl <;>
      first
      | exact hvi | exact hvg | exact hve | exact hvt | exact hvc | exact hvct
      | exact hvb | exact hvbf | exact hvim | exact hvimf | exact hvv | exact hvvf
  · intro kv hkv
    obtain ⟨k, v⟩ := kv
    have hkc := hsub k (List.mem_map_of_mem Prod.fst hkv)
    have hkmem : k ∈ knownFields := contains_true_iff_mem.mp hkc
    have hlk := dlookup_of_mem_nodup hnd hkv
    simp only [knownFields, List.mem_cons, List.not_mem_nil, or_false] at hkmem
    rcases hkmem with rfl | rfl | rfl | rfl | rfl | rfl | rfl | rfl | rfl | rfl | rfl | rfl <;>
      (simp only [hvi, hvg, hve, hvt, hvc, hvct, hvb, hvbf, hvim, hvimf, hvv,
        hvvf, Option.some.injEq] at hlk
       subst hlk
       rfl)

/-- C1 counterexample: the claim as stated fails — a dict carrying exactly the
twelve known fields with `books: null` (a shape the server can produce for an
empty list field) does not round-trip: `from_dict` succeeds, but `to_dict`
returns `[]` for `books`, so the result is not dict-equal to the input. -/
theorem from_dict_to_dict_roundtrip_cex :
    Project.from_dict (.obj
      [("id", .num 1), ("group_id", .num 1), ("episode_id", .num 1),
       ("title", .str "t"), ("cover", .str "c"), ("content", .str "x"),
       ("books", .null), ("books_file_ids", .null), ("images", .null),
       ("images_file_ids", .null), ("videos", .null),
       ("videos_file_ids", .null)]) =
      .ok (⟨[("id", .num 1), ("group_id", .num 1), ("episode_id", .num 1),
       ("title", .str "t"), ("cover", .str "c"), ("content", .str "x"),
       ("books", .arr []), ("books_file_ids", .arr []), ("images", .arr []),
       ("images_file_ids", .arr []), ("videos", .arr []),
       ("videos_file_ids", .arr [])]⟩ : Project)
    ∧ (⟨[("id", .num 1), ("group_id", .num 1), ("episode_id", .num 1),
       ("title", .str "t"), ("cover", .str "c"), ("content", .str "x"),
       ("books", .arr []), ("books_file_ids", .arr []), ("images", .arr []),
       ("images_file_ids", .arr []), ("videos", .arr []),
       ("videos_file_ids", .arr [])]⟩ : Project).to_dict =
      .ok [("id", .num 1), ("group_id", .num 1), ("episode_id", .num 1),
       ("title", .str "t"), ("cover", .str "c"), ("content", .str "x"),
       ("books", .arr []), ("books_file_ids", .arr []), ("images", .arr []),
       ("images_file_ids", .arr []), ("videos", .arr []),
       ("videos_file_ids", .arr [])]
    ∧ ¬DictEq
      [("id", .num 1), ("group_id", .num 1), ("episode_id", .num 1),
       ("title", .str "t"), ("cover", .str "c"), ("content", .str "x"),
       ("books", .arr []), ("books_file_ids", .arr []), ("images", .arr []),
       ("images_file_ids", .arr []), ("videos", .arr []),
       ("videos_file_ids", .arr [])]
      [("id", .num 1), ("group_id", .num 1), ("episode_id", .num 1),
       ("title", .str "t"), ("cover", .str "c"), ("content", .str "x"),
       ("books", .null), ("books_file_ids", .null), ("images", .null),
       ("images_file_ids", .null), ("videos", .null),
       ("videos_file_ids", .null)] := by
  refine ⟨rfl, rfl, ?_⟩
  intro h
  have h2 := h.1 ("books", .arr [])
    (List.mem_cons_of_mem _ (List.mem_cons_of_mem _ (List.mem_cons_of_mem _
      (List.mem_cons_of_mem _ (List.mem_cons_of_mem _ (List.mem_cons_of_mem _
        (List.mem_cons_self _ _)))))))
  have h3 : some JVal.null = some (JVal.arr []) := h2
  injection h3 with h4
  exact JVal.noConfusion h4

/-- C1 witness: a dict with exactly the twelve known fields and empty-list
values for the six list fields round-trips to a dict-equal dict. -/
theorem from_dict_to_dict_roundtrip_witness :
    ∃ p td, Project.from_dict (.obj
      [("id", .num 1), ("group_id", .num 2), ("episode_id", .num 3),
       ("title", .str "T"), ("cover", .str "c"), ("content", .str "x"),
       ("books", .arr [.str "b"]), ("books_file_ids", .arr [.num 5]),
       ("images", .arr []), ("images_file_ids", .arr []),
       ("videos", .arr []), ("videos_file_ids", .arr [])]) = .ok p
    ∧ p.to_dict = .ok td
    ∧ DictEq td
      [("id", .num 1), ("group_id", .num 2), ("episode_id", .num 3),
       ("title", .str "T"), ("cover", .str "c"), ("content", .str "x"),
       ("books", .arr [.str "b"]), ("books_file_ids", .arr [.num 5]),
       ("images", .arr []), ("images_file_ids", .arr []),
       ("videos", .arr []), ("videos_file_ids", .arr [])] :=
  from_dict_to_dict_roundtrip _ rfl rfl

/-- C5 (amended): extension fields beyond the twelve known ones are preserved
as attributes on construction, but `to_dict` emits exactly the twelve known
keys, so extension fields do not appear in its output (and hence not in the
dict `upload` serialises). -/
theorem extension_fields_kept_as_attributes_not_in_to_dict
    (d : PyDict) (hnd : keysNodup d = true) (k : String) (v : JVal)
    (hk : notKnownKey k = true) (hv : dlookup d k = some v)
    (p : Project) (hp : Project.from_dict (.obj d) = .ok p) :
    p.getattr k = some v ∧
    ∀ td, p.to_dict = .ok td →
      td.map Prod.fst = knownFields ∧ dlookup td k = none := by
  obtain ⟨i, g, e, t, c, ct, hi, hg, he, ht, hc, hct, hpe⟩ :=
    from_dict_ok_inv d p hp
  constructor
  · subst hpe
    rw [getattr_init _ _ _ _ _ _ _ _ _ _ _ _ _ _ (keysNodup_filter hnd)]
    rw [@dlookup_filter_key_pos JVal d notKnownKey k hk, hv]
    rfl
  · intro td htd
    obtain ⟨hmap, _⟩ := to_dict_ok_spec p td htd
    refine ⟨hmap, ?_⟩
    apply dlookup_eq_none_of_keys
    intro kv hkv he2
    have hmem : kv.1 ∈ knownFields := by
      rw [← hmap]
      exact List.mem_map_of_mem Prod.fst hkv
    rw [he2] at hmem
    have hkc := contains_true_iff_mem.mpr hmem
    simp [notKnownKey, hkc] at hk
    exact hk hmem

/-- C5 counterexample: the claim as stated fails — a project constructed from
a dict with an extension field `note` keeps `note` as an attribute, but
`to_dict` does not include it in its output, so extension fields do not
round-trip through `to_dict` (and are silently dropped by `upload`). -/
theorem extension_field_dropped_by_to_dict_cex :
    (Project.from_dict (.obj
      [("id", .num 1), ("group_id", .num 1), ("episode_id", .num 1),
       ("title", .str "t"), ("cover", .str "c"), ("content", .str "x"),
       ("note", .str "extension")])).map
      (fun p => (p.getattr "note",
                 p.to_dict.map (fun td => dlookup td "note"))) =
      .ok (some (.str "extension"), .ok none) := rfl

/-- C5 witness: the amended theorem applied to that same dict — the `note`
attribute survives construction, and `to_dict` emits exactly the twelve known
keys without `note`. -/
theorem extension_fields_kept_as_attributes_not_in_to_dict_witness :
    (⟨[("id", .num 1), ("group_id", .num 1), ("episode_id", .num 1),
       ("title", .str "t"), ("cover", .str "c"), ("content", .str "x"),
       ("books", .arr []), ("books_file_ids", .arr []), ("images", .arr []),
       ("images_file_ids", .arr []), ("videos", .arr []),
       ("videos_file_ids", .arr []), ("note", .str "extension")]⟩ : Project).getattr
      "note" = some (.str "extension") ∧
    ∀ td, (⟨[("id", .num 1), ("group_id", .num 1), ("episode_id", .num 1),
       ("title", .str "t"), ("cover", .str "c"), ("content", .str "x"),
       ("books", .arr []), ("books_file_ids", .arr []), ("images", .arr []),
       ("images_file_ids", .arr []), ("videos", .arr []),
       ("videos_file_ids", .arr []), ("note", .str "extension")]⟩ : Project).to_dict
        = .ok td →
      td.map Prod.fst = knownFields ∧ dlookup td "note" = none :=
  extension_fields_kept_as_attributes_not_in_to_dict
    [("id", .num 1), ("group_id", .num 1), ("episode_id", .num 1),
     ("title", .str "t"), ("cover", .str "c"), ("content", .str "x"),
     ("note", .str "extension")]
    rfl "note" (.str "extension") rfl rfl _ rfl

/-- C10: when any of the six list fields is absent from the construction dict
or present with value `null` (Python `None`), the constructed project carries
the empty list for it, and `to_dict` then emits `[]` for that field. -/
theorem absent_or_null_list_field_becomes_empty
    (d : PyDict) (f : String) (hf : f ∈ listFields) (hnd : keysNodup d = true)
    (hl : dlookup d f = none ∨ dlookup d f = some .null)
    (p : Project) (hp : Project.from_dict (.obj d) = .ok p) :
    p.getattr f = some (.arr []) ∧
    ∀ td, p.to_dict = .ok td → dlookup td f = some (.arr []) := by
  obtain ⟨i, g, e, t, c, ct, hi, hg, he, ht, hc, hct, hpe⟩ :=
    from_dict_ok_inv d p hp
  simp only [listFields, List.mem_cons, List.not_mem_nil, or_false] at hf
  have hknown : f ∈ knownFields := by
    rcases hf with rfl | rfl | rfl | rfl | rfl | rfl <;> simp [knownFields]
  have hkw : dlookup (d.filter (fun kv => notKnownKey kv.1)) f = none := by
    apply @dlookup_filter_key_neg JVal d notKnownKey f
    rcases hf with rfl | rfl | rfl | rfl | rfl | rfl <;> rfl
  have hnull : (dlookup d f).getD JVal.null = JVal.null := by
    rcases hl with hl | hl <;> simp [hl]
  have hga : p.getattr f = some (.arr []) := by
    subst hpe
    rw [getattr_init _ _ _ _ _ _ _ _ _ _ _ _ _ _ (keysNodup_filter hnd), hkw]
    simp only [oElse]
    rcases hf with rfl | rfl | rfl | rfl | rfl | rfl <;> (rw [hnull]; rfl)
  refine ⟨hga, ?_⟩
  intro td htd
  obtain ⟨_, hrec⟩ := to_dict_ok_spec p td htd
  rw [hrec f hknown, hga]

/-- C10 witness: a dict with `books` (and the other list fields) absent and
`images` explicitly `null` constructs a project whose `images` attribute is
`[]` and whose `to_dict` emits `[]` for `images`. -/
theorem absent_or_null_list_field_becomes_empty_witness :
    (⟨[("id", .num 3), ("group_id", .num 0), ("episode_id", .num 0),
       ("title", .str "t"), ("cover", .str ""), ("content", .str ""),
       ("books", .arr []), ("books_file_ids", .arr []), ("images", .arr []),
       ("images_file_ids", .arr []), ("videos", .arr []),
       ("videos_file_ids", .arr [])]⟩ : Project).getattr "images"
        = some (.arr []) ∧
    ∀ td, (⟨[("id", .num 3), ("group_id", .num 0), ("episode_id", .num 0),
       ("title", .str "t"), ("cover", .str ""), ("content", .str ""),
       ("books", .arr []), ("books_file_ids", .arr []), ("images", .arr []),
       ("images_file_ids", .arr []), ("videos", .arr []),
       ("videos_file_ids", .arr [])]⟩ : Project).to_dict = .ok td →
      dlookup td "images" = some (.arr []) :=
  absent_or_null_list_field_becomes_empty
    [("id", .num 3), ("group_id", .num 0), ("episode_id", .num 0),
     ("title", .str "t"), ("cover", .str ""), ("content", .str ""),
     ("images", .null)]
    "images" (by simp [listFields]) rfl (Or.inr rfl) _ rfl

/-- C3: `find_by_id` / `find_by_title` return the first project in list order
whose `id` / `title` attribute is Python-`==` to the target — directly when
the collection carries no session, refreshed by `Project.update` against the
bound session's transport when it does — and raise the not-found `ValueError`
when no project matches. -/
theorem find_by_first_match_or_not_found :
    (∀ (pre post : List Project) (p : Project) (pid w : JVal)
        (sv : Option (JVal → HttpResp)),
      (∀ q ∈ pre, ∃ x, q.getattr "id" = some x ∧ pyEq x pid = false) →
      p.getattr "id" = some w → pyEq w pid = true →
      ProjectCollection.find_by_id ⟨pre ++ p :: post, sv⟩ pid =
        match sv with
        | some srv => p.update srv
        | none => .ok p)
    ∧ (∀ (ps : List Project) (pid : JVal) (sv : Option (JVal → HttpResp)),
      (∀ q ∈ ps, ∃ x, q.getattr "id" = some x ∧ pyEq x pid = false) →
      ProjectCollection.find_by_id ⟨ps, sv⟩ pid =
        .error (.valueError ("未找到 ID 为 " ++ pyStrJ pid ++ " 的项目")))
    ∧ (∀ (pre post : List Project) (p : Project) (ttl w : JVal)
        (sv : Option (JVal → HttpResp)),
      (∀ q ∈ pre, ∃ x, q.getattr "title" = some x ∧ pyEq x ttl = false) →
      p.getattr "title" = some w → pyEq w ttl = true →
      ProjectCollection.find_by_title ⟨pre ++ p :: post, sv⟩ ttl =
        match sv with
        | some srv => p.update srv
        | none => .ok p)
    ∧ (∀ (ps : List Project) (ttl : JVal) (sv : Option (JVal → HttpResp)),
      (∀ q ∈ ps, ∃ x, q.getattr "title" = some x ∧ pyEq x ttl = false) →
      ProjectCollection.find_by_title ⟨ps, sv⟩ ttl =
        .error (.valueError ("未找到标题为 " ++ pyStrJ ttl ++ " 的项目"))) := by
  refine ⟨?_, ?_, ?_, ?_⟩
  · intro pre post p pid w sv hpre hw hweq
    exact scanBy_found "id" sv pid _ pre post p hpre w hw hweq
  · intro ps pid sv h
    exact scanBy_notfound "id" sv pid _ ps h
  · intro pre post p ttl w sv hpre hw hweq
    exact scanBy_found "title" sv ttl _ pre post p hpre w hw hweq
  · intro ps ttl sv h
    exact scanBy_notfound "title" sv ttl _ ps h

/-- C3 witness: on the list `[(id 1, title "A"), (id 2, title "B")]` without a
session, `find_by_id 2` returns the project titled `"B"`, and `find_by_id 99`
raises the not-found `ValueError`. -/
theorem find_by_first_match_or_not_found_witness :
    ProjectCollection.find_by_id
      ⟨[Project.init (.num 1) (.num 0) (.num 0) (.str "A") (.str "") (.str "")
          .null .null .null .null .null .null [],
        Project.init (.num 2) (.num 0) (.num 0) (.str "B") (.str "") (.str "")
          .null .null .null .null .null .null []], none⟩ (.num 2) =
      .ok (Project.init (.num 2) (.num 0) (.num 0) (.str "B") (.str "")
          (.str "") .null .null .null .null .null .null [])
    ∧ (Project.init (.num 2) (.num 0) (.num 0) (.str "B") (.str "") (.str "")
        .null .null .null .null .null .null []).getattr "title"
        = some (.str "B")
    ∧ ProjectCollection.find_by_id
      ⟨[Project.init (.num 1) (.num 0) (.num 0) (.str "A") (.str "") (.str "")
          .null .null .null .null .null .null [],
        Project.init (.num 2) (.num 0) (.num 0) (.str "B") (.str "") (.str "")
          .null .null .null .null .null .null []], none⟩ (.num 99) =
      .error (.valueError "未找到 ID 为 99 的项目") :=
  ⟨find_by_first_match_or_not_found.1
      [Project.init (.num 1) (.num 0) (.num 0) (.str "A") (.str "") (.str "")
          .null .null .null .null .null .null []] []
      (Project.init (.num 2) (.num 0) (.num 0) (.str "B") (.str "") (.str "")
          .null .null .null .null .null .null [])
      (.num 2) (.num 2) none
      (by
        intro q hq
        simp only [List.mem_singleton] at hq
        subst hq
        exact ⟨.num 1, rfl, by simp [pyEq]⟩)
      rfl (by simp [pyEq]),
   rfl,
   find_by_first_match_or_not_found.2.1
      [Project.init (.num 1) (.num 0) (.num 0) (.str "A") (.str "") (.str "")
          .null .null .null .null .null .null [],
       Project.init (.num 2) (.num 0) (.num 0) (.str "B") (.str "") (.str "")
          .null .null .null .null .null .null []]
      (.num 99) none
      (by
        intro q hq
        simp only [List.mem_cons, List.mem_singleton, List.not_mem_nil,
          or_false] at hq
        rcases hq with rfl | rfl
        · exact ⟨.num 1, rfl, by simp [pyEq]⟩
        · exact ⟨.num 2, rfl, by simp [pyEq]⟩)⟩

/-- C4 (amended): `_make_request` raises `APIError` on a 4xx/5xx status (the
statuses `raise_for_status` raises on), on an invalid-JSON body, and on a
parsed JSON body lacking the `data` key whenever Python's membership test
`"data" not in body` itself succeeds — that is, for object bodies (key
lookup), and also for array bodies not containing the string `"data"` as an
element and string bodies not containing `"data"` as a substring, which raise
`APIError` just the same; on a non-raising status with an object body carrying
`data` it returns exactly `body["data"]`; and every Session operation
(`get_projects`, `get_project`, `upload`, `upload_file`) surfaces an
`APIError` when the platform answers HTTP 500.  (A 3xx status is not raised
on, and a parsed body on which the membership test itself fails — a number,
boolean or null — surfaces a `TypeError` instead; see the counterexample.) -/
theorem make_request_error_envelope :
    (∀ r : HttpResp, raiseErrStatus r.status = true →
      isApiErr (make_request r) = true)
    ∧ (∀ r : HttpResp, raiseErrStatus r.status = false → r.json = none →
      isApiErr (make_request r) = true)
    ∧ (∀ (r : HttpResp) (kvs : PyDict), raiseErrStatus r.status = false →
      r.json = some (.obj kvs) → dlookup kvs "data" = none →
      isApiErr (make_request r) = true)
    ∧ (∀ (r : HttpResp) (xs : List JVal), raiseErrStatus r.status = false →
      r.json = some (.arr xs) →
      xs.any (fun x => pyEq x (.str "data")) = false →
      isApiErr (make_request r) = true)
    ∧ (∀ (r : HttpResp) (s : String), raiseErrStatus r.status = false →
      r.json = some (.str s) →
      pyContains.subList "data".data s.data = false →
      isApiErr (make_request r) = true)
    ∧ (∀ (r : HttpResp) (kvs : PyDict) (v : JVal),
      raiseErrStatus r.status = false →
      r.json = some (.obj kvs) → dlookup kvs "data" = some v →
      make_request r = .ok v)
    ∧ (∀ r : HttpResp, r.status = 500 →
      (∀ srv, isApiErr (get_projects r srv) = true)
      ∧ isApiErr (get_project r) = true
      ∧ (∀ (p : Project) (idv : JVal) (d0 : PyDict),
          p.getattr "id" = some idv → p.to_dict = .ok d0 →
          isApiErr (p.upload (fun _ => r)) = true)
      ∧ (∀ oss regResp, isApiErr (upload_file r oss regResp) = true)) := by
  refine ⟨?_, ?_, ?_, ?_, ?_, ?_, ?_⟩
  · intro r h
    simp [make_request, h, isApiErr]
  · intro r h hj
    simp [make_request, h, hj, isApiErr]
  · intro r kvs h hj hl
    simp [make_request, h, hj, pyContains, hl, isApiErr]
  · intro r xs h hj hany
    simp [make_request, h, hj, pyContains, hany, isApiErr]
  · intro r s h hj hsub
    simp [make_request, h, hj, pyContains, hsub, isApiErr]
  · intro r kvs v h hj hl
    simp [make_request, h, hj, pyContains, hl, pyGetItem]
  · intro r hst
    have hmr : make_request r =
        .error (.api ("API 请求失败: HTTP " ++ toString r.status)) := by
      simp [make_request, raiseErrStatus, hst]
    refine ⟨?_, ?_, ?_, ?_⟩
    · intro srv
      simp [get_projects, hmr, isApiErr]
    · simp [get_project, hmr, isApiErr]
    · intro p idv d0 hid htd
      simp [Project.upload, hid, htd, hmr, isApiErr]
    · intro oss regResp
      simp [upload_file, hmr, isApiErr, bind, Except.bind]

/-- C4 counterexample: the claim as stated fails at two concrete inputs.  A
302 response (non-2xx) with body `\x7b"data": 7\x7d` is not raised on —
`raise_for_status` raises only for 4xx/5xx — so `_make_request` returns the
value; and a 200 response whose JSON body is the bare number `5` (which lacks
the `data` key) raises `TypeError` from `"data" not in body`, not
`APIError`. -/
theorem make_request_non_api_error_cex :
    make_request ⟨302, "", some (.obj [("data", .num 7)])⟩ = .ok (.num 7)
    ∧ isApiErr (make_request ⟨302, "", some (.obj [("data", .num 7)])⟩) = false
    ∧ make_request ⟨200, "5", some (.num 5)⟩ =
        .error (.typeError "argument is not iterable")
    ∧ isApiErr (make_request ⟨200, "5", some (.num 5)⟩) = false :=
  ⟨rfl, rfl, rfl, rfl⟩

/-- C4 witness: a 500 response surfaces `APIError` from `_make_request` and
from `get_project`, an array body `[1, 2]` (which lacks the `data` key)
surfaces `APIError` as well, and a 200 response with `\x7b"data": 7\x7d`
returns `7`. -/
theorem make_request_error_envelope_witness :
    isApiErr (make_request ⟨500, "oops", none⟩) = true
    ∧ isApiErr (make_request ⟨200, "[1, 2]", some (.arr [.num 1, .num 2])⟩)
        = true
    ∧ make_request ⟨200, "", some (.obj [("data", .num 7)])⟩ = .ok (.num 7)
    ∧ isApiErr (get_project ⟨500, "", none⟩) = true :=
  ⟨make_request_error_envelope.1 ⟨500, "oops", none⟩ rfl,
   make_request_error_envelope.2.2.2.1
     ⟨200, "[1, 2]", some (.arr [.num 1, .num 2])⟩ [.num 1, .num 2] rfl rfl
     (by simp [pyEq]),
   make_request_error_envelope.2.2.2.2.2.1
     ⟨200, "", some (.obj [("data", .num 7)])⟩
     [("data", .num 7)] (.num 7) rfl rfl rfl,
   (make_request_error_envelope.2.2.2.2.2.2 ⟨500, "", none⟩ rfl).2.1⟩

/-- C6 (amended): `Project.update` merges the server response into the object
key by key, in place: every attribute named in the response's `data` dict
takes the response's value, every attribute not named in it keeps its previous
value (an overlay of the response, not a wholesale replacement), and on the
heap view the same cell is overwritten — the heap keeps its size, other cells
are untouched, and every alias of the cell observes the update. -/
theorem update_is_inplace_keywise_merge
    (hp : List Project) (i : Nat) (p : Project) (hi : hp[i]? = some p)
    (srv : JVal → HttpResp) (idv : JVal) (hid : p.getattr "id" = some idv)
    (kvs : PyDict) (hnd : keysNodup kvs = true)
    (hresp : make_request (srv idv) = .ok (.obj kvs)) :
    ∃ q, p.update srv = .ok q
      ∧ (∀ k, q.getattr k = oElse (dlookup kvs k) (p.getattr k))
      ∧ updateRef hp i srv = .ok (hp.set i q)
      ∧ (hp.set i q).length = hp.length
      ∧ (hp.set i q)[i]? = some q
      ∧ ∀ j, j ≠ i → (hp.set i q)[j]? = hp[j]? := by
  have hupd : p.update srv = .ok (kvs.foldl (fun q kv => q.setattr kv.1 kv.2) p) := by
    simp [Project.update, hid, hresp]
  refine ⟨kvs.foldl (fun q kv => q.setattr kv.1 kv.2) p, hupd, ?_, ?_, ?_, ?_, ?_⟩
  · intro k
    exact getattr_foldSetattr kvs p k hnd
  · simp [updateRef, hi, hupd]
  · simp
  · have hlt : i < hp.length := by
      by_contra hge
      rw [List.getElem?_eq_none (Nat.le_of_not_lt hge)] at hi
      exact Option.noConfusion hi
    simp [List.getElem?_set_self hlt]
  · intro j hj
    exact List.getElem?_set_ne (fun e => hj e.symm)

/-- C6 counterexample: `update` is not a full refresh from the response.  With
a server response whose `data` is `\x7bid: 9, title: "New"\x7d`, the updated
object keeps its previous `content` value even though the response does not
mention `content` at all: not every local attribute is overwritten from the
response. -/
theorem update_not_full_refresh_cex :
    (Project.update
      (Project.init (.num 1) (.num 0) (.num 0) (.str "Old") (.str "")
        (.str "OldContent") .null .null .null .null .null .null [])
      (fun _ => ⟨200, "", some (.obj [("data",
        .obj [("id", .num 9), ("title", .str "New")])])⟩)).map
      (fun q => (q.getattr "content", q.getattr "title", q.getattr "id")) =
      .ok (some (.str "OldContent"), some (.str "New"), some (.num 9))
    ∧ dlookup [("id", JVal.num 9), ("title", JVal.str "New")] "content" = none :=
  ⟨rfl, rfl⟩

/-- C6 witness: the amended theorem at a one-cell heap holding a project with
`id = 1`, refreshed by a response carrying `\x7bid: 9, title: "New"\x7d`. -/
theorem update_is_inplace_keywise_merge_witness :
    ∃ q, Project.update
        (Project.init (.num 1) (.num 0) (.num 0) (.str "Old") (.str "")
          (.str "OldContent") .null .null .null .null .null .null [])
        (fun _ => ⟨200, "", some (.obj [("data",
          .obj [("id", .num 9), ("title", .str "New")])])⟩) = .ok q
      ∧ (∀ k, q.getattr k =
          oElse (dlookup [("id", JVal.num 9), ("title", JVal.str "New")] k)
            ((Project.init (.num 1) (.num 0) (.num 0) (.str "Old") (.str "")
              (.str "OldContent") .null .null .null .null .null .null
              []).getattr k))
      ∧ updateRef
          [Project.init (.num 1) (.num 0) (.num 0) (.str "Old") (.str "")
            (.str "OldContent") .null .null .null .null .null .null []] 0
          (fun _ => ⟨200, "", some (.obj [("data",
            .obj [("id", .num 9), ("title", .str "New")])])⟩) =
          .ok ([Project.init (.num 1) (.num 0) (.num 0) (.str "Old") (.str "")
            (.str "OldContent") .null .null .null .null .null .null
            []].set 0 q)
      ∧ ([Project.init (.num 1) (.num 0) (.num 0) (.str "Old") (.str "")
            (.str "OldContent") .null .null .null .null .null .null
            []].set 0 q).length = 1
      ∧ ([Project.init (.num 1) (.num 0) (.num 0) (.str "Old") (.str "")
            (.str "OldContent") .null .null .null .null .null .null
            []].set 0 q)[0]? = some q
      ∧ ∀ j, j ≠ 0 →
          ([Project.init (.num 1) (.num 0) (.num 0) (.str "Old") (.str "")
            (.str "OldContent") .null .null .null .null .null .null
            []].set 0 q)[j]? =
          [Project.init (.num 1) (.num 0) (.num 0) (.str "Old") (.str "")
            (.str "OldContent") .null .null .null .null .null .null
            []][j]? :=
  update_is_inplace_keywise_merge
    [Project.init (.num 1) (.num 0) (.num 0) (.str "Old") (.str "")
      (.str "OldContent") .null .null .null .null .null .null []] 0
    (Project.init (.num 1) (.num 0) (.num 0) (.str "Old") (.str "")
      (.str "OldContent") .null .null .null .null .null .null []) rfl
    (fun _ => ⟨200, "", some (.obj [("data",
      .obj [("id", .num 9), ("title", .str "New")])])⟩)
    (.num 1) rfl [("id", JVal.num 9), ("title", JVal.str "New")] rfl rfl

/-- C8 (amended): `from_cookies` fails with an authentication error when the
admin-auth response has no `Location` header; otherwise the bearer token is
segment 1 of the header value split on `=` (an authentication error wraps the
`IndexError` when no `=` occurs), and when that segment is non-empty the
constructed session stores it and its headers carry
`Authorization: Bearer <token>`.  (When the segment is empty the construction
still succeeds but yields an empty token without an `Authorization` header —
see the counterexample.) -/
theorem from_cookies_token_extraction :
    (∀ r : AuthResponse, dlookup r.headers "Location" = none →
      from_cookies r =
        .error (.auth "从 cookies 创建会话失败: 无法从 cookies 获取认证令牌"))
    ∧ (∀ (r : AuthResponse) (loc : String),
        dlookup r.headers "Location" = some loc →
        (pySplitEq loc)[1]? = none →
        from_cookies r =
          .error (.auth "从 cookies 创建会话失败: list index out of range"))
    ∧ (∀ (r : AuthResponse) (loc tok : String),
        dlookup r.headers "Location" = some loc →
        (pySplitEq loc)[1]? = some tok → tok.data.isEmpty = false →
        from_cookies r = .ok (sessionInit (some tok))
        ∧ (sessionInit (some tok)).auth_token = some tok
        ∧ dlookup (sessionInit (some tok)).headers "Authorization"
            = some ("Bearer " ++ tok)) := by
  refine ⟨?_, ?_, ?_⟩
  · intro r hl
    simp [from_cookies, hl]
  · intro r loc hl hs
    simp [from_cookies, hl, hs]
  · intro r loc tok hl hs hne
    refine ⟨by simp [from_cookies, hl, hs], ?_, ?_⟩
    · simp [sessionInit, hne]
    · simp only [sessionInit, hne, Bool.not_false, if_true]
      rfl

/-- C8 counterexample: the claim as stated fails — with a `Location` header
whose value ends in `=` (empty second segment), construction succeeds, but the
session's bearer token is the empty string and its headers carry no
`Authorization` entry. -/
theorem from_cookies_empty_token_cex :
    (from_cookies ⟨[("Location", "t=")]⟩).map
      (fun s => (s.auth_token, dlookup s.headers "Authorization")) =
      .ok (some "", none) := rfl

/-- C8 witness: with `Location: url?token=abc`, the session is built with
token `abc` and an `Authorization: Bearer abc` header. -/
theorem from_cookies_token_extraction_witness :
    from_cookies ⟨[("Location", "url?token=abc")]⟩ =
      .ok (sessionInit (some "abc"))
    ∧ (sessionInit (some "abc")).auth_token = some "abc"
    ∧ dlookup (sessionInit (some "abc")).headers "Authorization"
        = some ("Bearer " ++ "abc") :=
  from_cookies_token_extraction.2.2 ⟨[("Location", "url?token=abc")]⟩
    "url?token=abc" "abc" rfl rfl rfl

/-- C7: for every project whose `id` is the integer `i`, `title` the string
`t` and `content` the string `c`, `download_content(output_dir)` writes the
file `output_dir/<i>-<t>.html` with contents exactly `c` and returns that
path. -/
theorem download_content_writes_id_title_html
    (p : Project) (output_dir : String) (fs : FS) (i : Int) (t c : String)
    (hid : p.getattr "id" = some (.num i))
    (ht : p.getattr "title" = some (.str t))
    (hc : p.getattr "content" = some (.str c)) :
    ∃ fs',
      p.download_content output_dir fs =
        .ok (ospath_join output_dir (toString i ++ "-" ++ t ++ ".html"), fs')
      ∧ dlookup fs' (ospath_join output_dir (toString i ++ "-" ++ t ++ ".html"))
          = some c := by
  refine ⟨dset fs (ospath_join output_dir (toString i ++ "-" ++ t ++ ".html")) c,
    ?_, ?_⟩
  · simp [Project.download_content, hid, ht, hc, pyStrJ]
  · rw [dlookup_dset]
    simp

/-- C7 witness: a project with `id = 7`, `title = "T"`, `content = "<p>x</p>"`
downloaded into `"."` produces the path `./7-T.html` holding `<p>x</p>`. -/
theorem download_content_writes_id_title_html_witness :
    ∃ fs',
      Project.download_content
        (Project.init (.num 7) (.num 0) (.num 0) (.str "T") (.str "")
          (.str "<p>x</p>") .null .null .null .null .null .null []) "." []
        = .ok (ospath_join "." (toString (7 : Int) ++ "-" ++ "T" ++ ".html"), fs')
      ∧ dlookup fs'
          (ospath_join "." (toString (7 : Int) ++ "-" ++ "T" ++ ".html"))
          = some "<p>x</p>" :=
  download_content_writes_id_title_html _ "." [] 7 "T" "<p>x</p>" rfl rfl rfl

end MilCubes
